import Mathlib

/-!
Shallow embedding of the judge-dashboard case-access-request view
(`src/services/request.service.ts` plus the `CaseAccessRequest` component).

Strings are modelled as `List Char`.  The component state (`useState`
hooks) is collected into one `AppState` record; each event handler is a
function on `AppState`.  Asynchronous operations (`loadRequests`,
`handleApprove`) are split into a start phase (what runs before the
awaited network call) and a settle phase (what runs in the
success/failure continuations), with the network outcome passed in
explicitly.
-/

namespace JudgeDashboard

/-- Strings as character lists (JS strings). -/
abbrev Str := List Char

/-- JS `s.toLowerCase()`. -/
def toLower (s : Str) : Str := s.map Char.toLower

/-- JS `s.trim()`: remove leading and trailing whitespace. -/
def trim (s : Str) : Str :=
  ((s.dropWhile Char.isWhitespace).reverse.dropWhile Char.isWhitespace).reverse

/-- JS `s.includes(q)`: `q` occurs as a contiguous substring of `s`. -/
def includes (s q : Str) : Bool := decide (q <:+: s)

/-- JS `x || fallback` on an optional string (`undefined` and `""` are falsy). -/
def jsOrStr (m : Option Str) (fallback : Str) : Str :=
  match m with
  | none => fallback
  | some s => if s.isEmpty then fallback else s

/-- `status: "PENDING" | "APPROVED"` from the `CaseRequest` interface. -/
inductive ReqStatus where
  | pending
  | approved
deriving DecidableEq, Repr

/-- The `CaseRequest` interface of the component. -/
structure CaseRequest where
  id : Str
  caseId : Str
  lawyerAddress : Str
  lawyerUid : Option Str := none
  requestedAt : Nat
  status : ReqStatus := .pending
  lawyerName : Option Str := none
  lawyerEmail : Option Str := none
deriving DecidableEq, Repr

/-- The `useState` hooks of `CaseAccessRequest`, gathered into one record.
`approving` models the `Record<string, boolean>` busy map as a total
function with default `false` (absent keys read as falsy). -/
structure AppState where
  requests : List CaseRequest
  isLoading : Bool
  error : Str
  approving : Str → Bool
  searchTerm : Str
  currentPage : Nat
  pageSize : Nat

/-- The initial hook values: `[]`, `true`, `""`, `{}`, `""`, `1`, `6`. -/
def initialState : AppState where
  requests := []
  isLoading := true
  error := []
  approving := fun _ => false
  searchTerm := []
  currentPage := 1
  pageSize := 6

/-- The filter callback of `filteredRequests` (source lines 64-73):
trim and lower-case the search term; an empty query passes everything,
otherwise match the query as a substring of the lower-cased name, email,
case id or address (absent optional fields read as `""`). -/
def requestMatches (searchTerm : Str) (r : CaseRequest) : Bool :=
  let q := toLower (trim searchTerm)
  if q.isEmpty then true
  else
    includes (toLower (r.lawyerName.getD [])) q ||
    includes (toLower (r.lawyerEmail.getD [])) q ||
    includes (toLower r.caseId) q ||
    includes (toLower r.lawyerAddress) q

/-- `filteredRequests` (source lines 62-74): `requests.length > 0 ?
requests.filter(...) : []`. -/
def filteredRequests (s : AppState) : List CaseRequest :=
  if s.requests.length > 0 then s.requests.filter (requestMatches s.searchTerm)
  else []

/-- `totalPages = Math.max(1, Math.ceil(filteredRequests.length / pageSize))`
(source line 76); for positive `pageSize` the JS ceiling of the division is
`(len + pageSize - 1) / pageSize` in natural division. -/
def totalPages (s : AppState) : Nat :=
  max 1 (((filteredRequests s).length + s.pageSize - 1) / s.pageSize)

/-- `displayedRequests = filteredRequests.slice((currentPage-1)*pageSize,
(currentPage-1)*pageSize + pageSize)` (source lines 77-80). -/
def displayedRequests (s : AppState) : List CaseRequest :=
  ((filteredRequests s).drop ((s.currentPage - 1) * s.pageSize)).take s.pageSize

/-- Outcome of `requestService.getPendingRequests()` as seen by
`loadRequests`: either a payload (possibly `undefined`/`null`, hence
`Option`), or a thrown error carrying an optional message. -/
inductive FetchResult where
  | ok (data : Option (List CaseRequest))
  | err (message : Option Str)

/-- The part of `loadRequests` (source lines 47-60) that runs before the
awaited fetch: only `setIsLoading(true)`. -/
def loadStart (s : AppState) : AppState := { s with isLoading := true }

/-- The continuations of `loadRequests`: on success `setRequests(data || [])`,
`setCurrentPage(1)`, `setError("")`; on failure `setError(e.message ||
"Failed to load requests")`; in both cases `setIsLoading(false)`. -/
def loadSettle (s : AppState) : FetchResult → AppState
  | .ok data =>
      { s with requests := data.getD [], currentPage := 1, error := [],
               isLoading := false }
  | .err m =>
      { s with error := jsOrStr m "Failed to load requests".toList,
               isLoading := false }

/-- Outcome of `requestService.assignLawyer(...)` as seen by
`handleApprove`. -/
inductive AssignResult where
  | ok
  | err (message : Option Str)

/-- The part of `handleApprove` (source lines 82-85) that runs before the
awaited assign call: if `approving[req.id]` is set, return without doing
anything (and without issuing the call); otherwise mark the id busy and
issue the call.  The boolean result records whether the assign call was
issued. -/
def approveStart (s : AppState) (req : CaseRequest) : AppState × Bool :=
  if s.approving req.id then (s, false)
  else ({ s with approving := fun x => if x = req.id then true else s.approving x },
        true)

/-- The continuations of `handleApprove` (source lines 87-95): on success
`setRequests(prev => prev.filter(r => r.id !== req.id))`; on failure
`setError(e.message || "Approval failed")`; in both cases (the `finally`
block) set `approving[req.id]` to `false`. -/
def approveSettle (s : AppState) (req : CaseRequest) : AssignResult → AppState
  | .ok =>
      { s with requests := s.requests.filter (fun r => r.id ≠ req.id),
               approving := fun x => if x = req.id then false else s.approving x }
  | .err m =>
      { s with error := jsOrStr m "Approval failed".toList,
               approving := fun x => if x = req.id then false else s.approving x }

/-- `onChange` of the search input (source lines 116-119):
`setSearchTerm(value); setCurrentPage(1)`. -/
def onSearchChange (s : AppState) (v : Str) : AppState :=
  { s with searchTerm := v, currentPage := 1 }

/-- `onChange` of the page-size select (source lines 130-133):
`setPageSize(n); setCurrentPage(1)`. -/
def onPageSizeChange (s : AppState) (n : Nat) : AppState :=
  { s with pageSize := n, currentPage := 1 }

/-- `onClick` of the Prev button (source line 254):
`setCurrentPage(p => Math.max(1, p - 1))`. -/
def onPrev (s : AppState) : AppState :=
  { s with currentPage := max 1 (s.currentPage - 1) }

/-- `onClick` of the Next button (source lines 277-279):
`setCurrentPage(p => Math.min(totalPages, p + 1))`. -/
def onNext (s : AppState) : AppState :=
  { s with currentPage := min (totalPages s) (s.currentPage + 1) }

/-! ### Concrete fixtures used by witnesses -/

/-- The sample request of the spec's first scenario:
`{id:"1", caseId:"C1", lawyerAddress:"0xA", requestedAt:1000}`. -/
def sampleRequest : CaseRequest where
  id := "1".toList
  caseId := "C1".toList
  lawyerAddress := "0xA".toList
  requestedAt := 1000

/-- A state holding the sample request, with a stale error message
`"boom"` and no approval in flight. -/
def sampleState : AppState where
  requests := [sampleRequest]
  isLoading := false
  error := "boom".toList
  approving := fun _ => false
  searchTerm := []
  currentPage := 1
  pageSize := 6

/-! ### Claims -/

/-- C9: changing the search query or changing the page size sets the
current page to 1 (while storing the new query / page size). -/
theorem c9_change_resets_page (s : AppState) (v : Str) (n : Nat) :
    (onSearchChange s v).currentPage = 1 ∧
    (onPageSizeChange s n).currentPage = 1 ∧
    (onSearchChange s v).searchTerm = v ∧
    (onPageSizeChange s n).pageSize = n :=
  ⟨rfl, rfl, rfl, rfl⟩

/-- C8: a successful fetch replaces the whole collection with the result
(empty when the result is absent) and resets the current page to 1. -/
theorem c8_load_success (s : AppState) (data : Option (List CaseRequest)) :
    (loadSettle s (.ok data)).requests = data.getD [] ∧
    (data = none → (loadSettle s (.ok data)).requests = []) ∧
    (data = some [] → (loadSettle s (.ok data)).requests = []) ∧
    (loadSettle s (.ok data)).currentPage = 1 := by
  refine ⟨rfl, fun h => ?_, fun h => ?_, rfl⟩ <;> subst h <;> rfl

/-- Witness for C8 at a concrete state and absent payload. -/
theorem c8_load_success_witness :
    (loadSettle sampleState (.ok none)).requests = [] :=
  (c8_load_success sampleState none).2.1 rfl

/-- C6: a failing fetch stores the failure's message (the fixed fallback
`"Failed to load requests"` when no message is carried), clears the
loading flag, and leaves the collection as it was. -/
theorem c6_load_failure (s : AppState) (m : Option Str) :
    (loadSettle s (.err m)).isLoading = false ∧
    (loadSettle s (.err m)).requests = s.requests ∧
    (∀ msg, m = some msg → msg ≠ [] → (loadSettle s (.err m)).error = msg) ∧
    (m = none →
      (loadSettle s (.err m)).error = "Failed to load requests".toList) := by
  refine ⟨rfl, rfl, fun msg hm hne => ?_, fun h => ?_⟩
  · subst hm
    cases msg with
    | nil => exact absurd rfl hne
    | cons c cs => rfl
  · subst h; rfl

/-- Witness for C6: a failure carrying `"network down"` stores it; a
message-less failure stores the fallback. -/
theorem c6_load_failure_witness :
    (loadSettle sampleState (.err (some "network down".toList))).error
        = "network down".toList ∧
    (loadSettle sampleState (.err none)).error
        = "Failed to load requests".toList :=
  ⟨(c6_load_failure sampleState (some "network down".toList)).2.2.1
      "network down".toList rfl (by decide),
   (c6_load_failure sampleState none).2.2.2 rfl⟩

/-- C7: a failing assign call stores the failure's message (fallback
`"Approval failed"` when absent), leaves the collection unchanged, and in
all cases the busy flag for the request's id is false after settling. -/
theorem c7_approve_failure (s : AppState) (req : CaseRequest) :
    (∀ msg, msg ≠ [] →
      (approveSettle s req (.err (some msg))).error = msg) ∧
    ((approveSettle s req (.err none)).error = "Approval failed".toList) ∧
    (∀ m, (approveSettle s req (.err m)).requests = s.requests) ∧
    (∀ res, (approveSettle s req res).approving req.id = false) := by
  refine ⟨fun msg hne => ?_, rfl, fun m => rfl, fun res => ?_⟩
  · cases msg with
    | nil => exact absurd rfl hne
    | cons c cs => rfl
  · cases res <;> simp [approveSettle]

/-- Witness for C7 at the sample request. -/
theorem c7_approve_failure_witness :
    (approveSettle sampleState sampleRequest
        (.err (some "network down".toList))).error = "network down".toList ∧
    (approveSettle sampleState sampleRequest .ok).approving sampleRequest.id
        = false :=
  ⟨(c7_approve_failure sampleState sampleRequest).1 "network down".toList
      (by decide),
   (c7_approve_failure sampleState sampleRequest).2.2.2 .ok⟩

/-- C5 counterexample: the load operation does not clear the error before
the fetch — starting a load from a state whose error is `"boom"` leaves
`"boom"` in place while the fetch is in flight. -/
theorem c5_error_not_cleared_counterexample :
    sampleState.error ≠ [] ∧
    (loadStart sampleState).isLoading = true ∧
    (loadStart sampleState).error = "boom".toList := by
  exact ⟨by decide, rfl, rfl⟩

/-- C5 (amended): starting a load only sets the loading flag and leaves
any prior error message untouched while the fetch is in flight; the error
message is cleared only when the fetch settles successfully. -/
theorem c5_error_cleared_only_on_success (s : AppState) :
    (loadStart s).error = s.error ∧
    (loadStart s).isLoading = true ∧
    (∀ d, (loadSettle (loadStart s) (.ok d)).error = []) :=
  ⟨rfl, rfl, fun _ => rfl⟩

/-- C3: if the request's id is already busy, approval is a no-op issuing
no assign call; from a non-busy state the first invocation issues the
call and a second rapid invocation (while the first is outstanding)
changes nothing and issues none — exactly one call in total. -/
theorem c3_busy_guard (s : AppState) (req : CaseRequest) :
    (s.approving req.id = true → approveStart s req = (s, false)) ∧
    (s.approving req.id = false →
      (approveStart s req).2 = true ∧
      approveStart (approveStart s req).1 req
        = ((approveStart s req).1, false)) := by
  constructor
  · intro h; simp [approveStart, h]
  · intro h; simp [approveStart, h]

/-- Witness for C3: from the sample state (not busy), the first
invocation issues the call and the second is a no-op. -/
theorem c3_busy_guard_witness :
    (approveStart sampleState sampleRequest).2 = true ∧
    approveStart (approveStart sampleState sampleRequest).1 sampleRequest
      = ((approveStart sampleState sampleRequest).1, false) :=
  (c3_busy_guard sampleState sampleRequest).2 rfl

/-- The total page count is always at least 1. -/
theorem one_le_totalPages (s : AppState) : 1 ≤ totalPages s :=
  le_max_left 1 _

/-- C10: Prev sets the page to `max 1 (page - 1)` and Next to
`min totalPages (page + 1)`; navigation alone never moves the page below
1 or above the total page count. -/
theorem c10_nav_clamped (s : AppState) :
    (onPrev s).currentPage = max 1 (s.currentPage - 1) ∧
    (onNext s).currentPage = min (totalPages s) (s.currentPage + 1) ∧
    1 ≤ (onPrev s).currentPage ∧
    (onNext s).currentPage ≤ totalPages s ∧
    1 ≤ (onNext s).currentPage ∧
    (s.currentPage ≤ totalPages s →
      (onPrev s).currentPage ≤ totalPages s) := by
  have hT : 1 ≤ totalPages s := one_le_totalPages s
  have hp : (onPrev s).currentPage = max 1 (s.currentPage - 1) := rfl
  have hn : (onNext s).currentPage = min (totalPages s) (s.currentPage + 1) := rfl
  refine ⟨hp, hn, ?_, ?_, ?_, fun h => ?_⟩ <;> simp only [hp, hn] <;> omega

/-- Witness for C10 at the sample state (page 1 of 1). -/
theorem c10_nav_clamped_witness :
    (onPrev sampleState).currentPage ≤ totalPages sampleState :=
  (c10_nav_clamped sampleState).2.2.2.2.2 (by decide)

/-- The `length > 0` guard in `filteredRequests` is equivalent to a plain
filter (an empty collection filters to the empty list anyway). -/
theorem filteredRequests_eq (s : AppState) :
    filteredRequests s = s.requests.filter (requestMatches s.searchTerm) := by
  unfold filteredRequests
  cases s.requests with
  | nil => simp
  | cons a l => simp

/-- C4: a request is in the filtered collection iff it is in the
collection and matches; matching holds iff the trimmed, case-folded
query is empty, or is a substring of the case-folded display name
(empty when absent), display email (empty when absent), case identifier,
or requester address. -/
theorem c4_filter_semantics (s : AppState) (r : CaseRequest) :
    (r ∈ filteredRequests s ↔
      r ∈ s.requests ∧ requestMatches s.searchTerm r = true) ∧
    (requestMatches s.searchTerm r = true ↔
      (toLower (trim s.searchTerm) = [] ∨
        toLower (trim s.searchTerm) <:+: toLower (r.lawyerName.getD []) ∨
        toLower (trim s.searchTerm) <:+: toLower (r.lawyerEmail.getD []) ∨
        toLower (trim s.searchTerm) <:+: toLower r.caseId ∨
        toLower (trim s.searchTerm) <:+: toLower r.lawyerAddress)) := by
  constructor
  · rw [filteredRequests_eq, List.mem_filter]
  · unfold requestMatches includes
    by_cases hq : (toLower (trim s.searchTerm)).isEmpty
    · have hnil : toLower (trim s.searchTerm) = [] := List.isEmpty_iff.mp hq
      simp [hq, hnil]
    · have hne : toLower (trim s.searchTerm) ≠ [] := by
        simpa using (List.isEmpty_eq_false.mp (Bool.of_not_eq_true hq))
      simp [hq, hne, or_assoc]

/-- Removing by id from a list with pairwise-distinct ids containing the
id drops the length by exactly one. -/
theorem length_filter_ne_id (i : Str) :
    ∀ l : List CaseRequest, (l.map (fun r => r.id)).Nodup →
      i ∈ l.map (fun r => r.id) →
      (l.filter (fun r => r.id ≠ i)).length + 1 = l.length := by
  intro l
  induction l with
  | nil => intro _ h; simp at h
  | cons a l ih =>
    intro hnd hmem
    simp only [List.map_cons, List.nodup_cons] at hnd
    simp only [List.map_cons, List.mem_cons] at hmem
    rcases hmem with h | h
    · subst h
      have hfa : List.filter (fun r => r.id ≠ a.id) l = l := by
        rw [List.filter_eq_self]
        intro r hr
        have hri : r.id ≠ a.id := fun hri =>
          hnd.1 (hri ▸ List.mem_map.mpr ⟨r, hr, rfl⟩)
        simpa using hri
      rw [List.filter_cons_of_neg (p := fun r : CaseRequest => r.id ≠ a.id) (by simp),
        hfa, List.length_cons]
    · have hai : a.id ≠ i := fun hai => hnd.1 (hai.symm ▸ h)
      have hih := ih hnd.2 h
      rw [List.filter_cons_of_pos (p := fun r : CaseRequest => r.id ≠ i)
          (by simpa using hai),
        List.length_cons, List.length_cons]
      omega

/-- C2: when ids are unique and the approved request's id is present,
a successful approval removes exactly one entry — the one whose id
matches — keeping the rest in order, and a failed approval removes
nothing. -/
theorem c2_approve_removes_one (s : AppState) (req : CaseRequest)
    (hnd : (s.requests.map (fun r => r.id)).Nodup)
    (hmem : req.id ∈ s.requests.map (fun r => r.id)) :
    ((approveSettle s req .ok).requests.Sublist s.requests ∧
     (approveSettle s req .ok).requests.length + 1 = s.requests.length ∧
     ∀ r ∈ s.requests,
       (r ∈ (approveSettle s req .ok).requests ↔ r.id ≠ req.id)) ∧
    (∀ m, (approveSettle s req (.err m)).requests = s.requests) := by
  have hreq : (approveSettle s req .ok).requests
      = s.requests.filter (fun r => r.id ≠ req.id) := rfl
  refine ⟨⟨?_, ?_, fun r hr => ?_⟩, fun m => rfl⟩
  · rw [hreq]; exact List.filter_sublist s.requests
  · rw [hreq]; exact length_filter_ne_id req.id s.requests hnd hmem
  · rw [hreq, List.mem_filter]
    simp [hr]

/-- Witness for C2: the sample state's single request has a unique id;
approving it empties the collection. -/
theorem c2_approve_removes_one_witness :
    (approveSettle sampleState sampleRequest .ok).requests.length + 1
      = sampleState.requests.length :=
  (c2_approve_removes_one sampleState sampleRequest (by decide)
      (by decide)).1.2.1

/-- Concatenating the `n` consecutive `pageSize`-slices of a list covers
the whole list once `n * pageSize` reaches its length. -/
theorem join_slices {α : Type} (ps : Nat) :
    ∀ (n : Nat) (l : List α), l.length ≤ n * ps →
      ((List.range n).map (fun i => (l.drop (i * ps)).take ps)).flatten = l := by
  intro n
  induction n with
  | zero =>
    intro l hl
    simp only [Nat.zero_mul, Nat.le_zero] at hl
    simp [List.eq_nil_of_length_eq_zero hl]
  | succ n ih =>
    intro l hl
    have hdrop : ∀ i : Nat, l.drop ((i + 1) * ps) = (l.drop ps).drop (i * ps) := by
      intro i
      rw [List.drop_drop, Nat.succ_mul, Nat.add_comm]
    have hlen : (l.drop ps).length ≤ n * ps := by
      rw [List.length_drop]
      have h1 : (n + 1) * ps = n * ps + ps := by ring
      omega
    rw [List.range_succ_eq_map, List.map_cons, List.map_map, List.flatten_cons]
    have hmap : ((List.range n).map
          ((fun i => (l.drop (i * ps)).take ps) ∘ Nat.succ))
        = (List.range n).map
          (fun i => ((l.drop ps).drop (i * ps)).take ps) := by
      apply List.map_congr_left
      intro i _
      simp only [Function.comp]
      rw [← hdrop i]
    rw [hmap, ih (l.drop ps) hlen]
    simp

/-- The ceiling page count times the page size covers the whole list. -/
theorem length_le_pages_mul (len ps : Nat) (hps : 0 < ps) :
    len ≤ max 1 ((len + ps - 1) / ps) * ps := by
  have hdm := Nat.div_add_mod (len + ps - 1) ps
  have hmod : (len + ps - 1) % ps < ps := Nat.mod_lt _ hps
  rcases Nat.eq_zero_or_pos ((len + ps - 1) / ps) with hq | hq
  · rw [hq] at hdm ⊢
    simp only [Nat.mul_zero, Nat.zero_add] at hdm
    have hlen : len = 0 := by omega
    simp [hlen]
  · rw [Nat.max_eq_right hq, Nat.mul_comm]
    generalize hgen : (len + ps - 1) / ps = q at hdm hq ⊢
    generalize hA : ps * q = A at hdm ⊢
    omega

/-- C1: the total page count equals `max 1 ⌈filtered-count / pageSize⌉`,
and concatenating the displayed slices of pages `1 .. totalPages`
reproduces the filtered collection exactly, in order. -/
theorem c1_pagination (s : AppState) (hps : 0 < s.pageSize) :
    totalPages s = max 1 ((filteredRequests s).length ⌈/⌉ s.pageSize) ∧
    ((List.range (totalPages s)).map
        (fun i => displayedRequests { s with currentPage := i + 1 })).flatten
      = filteredRequests s := by
  constructor
  · rfl
  · have hdisp : ∀ i : Nat,
        displayedRequests { s with currentPage := i + 1 }
          = ((filteredRequests s).drop (i * s.pageSize)).take s.pageSize :=
      fun i => rfl
    simp only [hdisp]
    exact join_slices s.pageSize (totalPages s) (filteredRequests s)
      (length_le_pages_mul (filteredRequests s).length s.pageSize hps)

/-- Seven distinct requests, matching the spec's pagination scenario. -/
def sevenRequests : List CaseRequest :=
  (List.range 7).map (fun k =>
    { id := [Char.ofNat (49 + k)]
      caseId := "C1".toList
      lawyerAddress := "0xA".toList
      requestedAt := 1000 + k })

/-- The spec's pagination scenario: 7 requests, page size 6, page 2. -/
def pagedState : AppState where
  requests := sevenRequests
  isLoading := false
  error := []
  approving := fun _ => false
  searchTerm := []
  currentPage := 2
  pageSize := 6

/-- Sanity: 7 requests at page size 6 give 2 pages, page 2 shows 1 item. -/
theorem pagedState_scenario :
    totalPages pagedState = 2 ∧ (displayedRequests pagedState).length = 1 := by
  constructor <;> rfl

/-- Witness for C1 at the 7-request, page-size-6 state. -/
theorem c1_pagination_witness :
    0 < pagedState.pageSize ∧
    (totalPages pagedState
        = max 1 ((filteredRequests pagedState).length ⌈/⌉ pagedState.pageSize) ∧
      ((List.range (totalPages pagedState)).map
          (fun i => displayedRequests
            { pagedState with currentPage := i + 1 })).flatten
        = filteredRequests pagedState) :=
  ⟨by decide, c1_pagination pagedState (by decide)⟩

end JudgeDashboard
